import Mathlib

/-!
Shallow embedding of `creation_service/scripts/get_refresh_token.py`.

The script drives an OAuth installed-application flow: it checks that the
client-secret file exists, constructs an `InstalledAppFlow`, runs either the
console or the local-server consent variant, builds a five-field payload
dictionary, optionally writes it as indented JSON to `--output`, optionally
writes three shell-variable lines to `--env-file`, and prints instructions
plus the JSON to stdout unless `--quiet` is set.

External effects (filesystem, the OAuth delegate, I/O failures) are modelled
by an explicit `World`; `run_flow` is a pure function from a world and the
parsed arguments to a `RunResult` (final filesystem, delegate calls, stdout,
and the propagated error, if any).
-/

namespace GetRefreshToken

/-- Whitespace as recognised by a JSON parser. -/
def wsChar (c : Char) : Bool :=
  c = ' ' || c = '\t' || c = '\n' || c = '\r'

/-- Drop leading JSON whitespace. -/
def skipWs : List Char → List Char
  | [] => []
  | c :: rest => if wsChar c then skipWs rest else c :: rest

/-- Lower-case hexadecimal digit, as produced by Python's json module. -/
def hexDigit (n : Nat) : Char :=
  if n < 10 then Char.ofNat (48 + n) else Char.ofNat (87 + n)

/-- Value of one hexadecimal digit (either case), if valid. -/
def hexVal (c : Char) : Option Nat :=
  if 48 ≤ c.toNat ∧ c.toNat ≤ 57 then some (c.toNat - 48)
  else if 97 ≤ c.toNat ∧ c.toNat ≤ 102 then some (c.toNat - 87)
  else if 65 ≤ c.toNat ∧ c.toNat ≤ 70 then some (c.toNat - 55)
  else none

/-- Four-digit hexadecimal rendering of `n < 0x10000`. -/
def hex4enc (n : Nat) : List Char :=
  [hexDigit (n / 4096 % 16), hexDigit (n / 256 % 16), hexDigit (n / 16 % 16), hexDigit (n % 16)]

/-- Value of four hexadecimal digits. -/
def hex4val (a b c d : Char) : Option Nat := do
  let x ← hexVal a
  let y ← hexVal b
  let z ← hexVal c
  let w ← hexVal d
  pure (x * 4096 + y * 256 + z * 16 + w)

/-- JSON escape of one character, following Python's `json` encoder with its
default `ensure_ascii=True`: `"` and backslash and the five control
characters with short escapes get two-character escapes, printable ASCII
passes through, every other character becomes a lower-case hexadecimal escape,
with a UTF-16 surrogate pair for characters beyond the basic plane. -/
def escChar (c : Char) : List Char :=
  if c = '"' then ['\\', '"']
  else if c = '\\' then ['\\', '\\']
  else if c = '\x08' then ['\\', 'b']
  else if c = '\x09' then ['\\', 't']
  else if c = '\x0a' then ['\\', 'n']
  else if c = '\x0c' then ['\\', 'f']
  else if c = '\x0d' then ['\\', 'r']
  else if 0x20 ≤ c.toNat ∧ c.toNat ≤ 0x7e then [c]
  else if c.toNat < 0x10000 then '\\' :: 'u' :: hex4enc c.toNat
  else
    ('\\' :: 'u' :: hex4enc (0xD800 + (c.toNat - 0x10000) / 0x400)) ++
      ('\\' :: 'u' :: hex4enc (0xDC00 + (c.toNat - 0x10000) % 0x400))

/-- JSON escape of a character list. -/
def escL (l : List Char) : List Char :=
  (l.map escChar).flatten

/-- JSON escape of a string. -/
def escapeString (s : String) : String :=
  String.mk (escL s.data)

/-- JSON values appearing in the script's payload: strings and `null`. -/
inductive JVal
  | str (s : String)
  | null
deriving DecidableEq

/-- Serialization of a payload value, as Python's json module renders it. -/
def dumpJVal : JVal → String
  | .str s => "\"" ++ escapeString s ++ "\""
  | .null => "null"

/-- `sep.join xs` from Python. -/
def joinSep (sep : String) : List String → String
  | [] => ""
  | [x] => x
  | x :: xs => x ++ sep ++ joinSep sep xs

/-- One `"key": value` object member, indented as by `json.dump(..., indent=n)`. -/
def dumpMember (indent : Nat) (m : String × JVal) : String :=
  String.mk (List.replicate indent ' ') ++ "\"" ++ escapeString m.1 ++ "\": " ++ dumpJVal m.2

/-- `json.dumps(obj, indent=n)` for a flat object whose values are strings or
null: members one per line, separated by `",\n"`, keys followed by `": "`. -/
def pyJsonDumpObj (indent : Nat) (ms : List (String × JVal)) : String :=
  if ms.isEmpty then "\x7b\x7d"
  else "\x7b\n" ++ joinSep ",\n" (ms.map (dumpMember indent)) ++ "\n\x7d"

/-- Decode one JSON string escape (the part after the backslash): the standard
two-character escapes, and `\uXXXX` escapes with UTF-16 surrogate-pair
recombination; lone surrogates are rejected.  Returns the decoded character
and the remaining input. -/
def escDecode (e : Char) (rest : List Char) : Option (Char × List Char) :=
  if e = '"' then some ('"', rest)
  else if e = '\\' then some ('\\', rest)
  else if e = '/' then some ('/', rest)
  else if e = 'b' then some ('\x08', rest)
  else if e = 'f' then some ('\x0c', rest)
  else if e = 'n' then some ('\x0a', rest)
  else if e = 'r' then some ('\x0d', rest)
  else if e = 't' then some ('\x09', rest)
  else if e = 'u' then
    match rest with
    | d1 :: d2 :: d3 :: d4 :: rest3 =>
      (hex4val d1 d2 d3 d4).bind fun n =>
        if 0xD800 ≤ n ∧ n ≤ 0xDBFF then
          match rest3 with
          | c2 :: e2 :: d5 :: d6 :: d7 :: d8 :: rest4 =>
            if c2 = '\\' ∧ e2 = 'u' then
              (hex4val d5 d6 d7 d8).bind fun m =>
                if 0xDC00 ≤ m ∧ m ≤ 0xDFFF then
                  some (Char.ofNat (0x10000 + (n - 0xD800) * 0x400 + (m - 0xDC00)), rest4)
                else none
            else none
          | _ => none
        else if 0xDC00 ≤ n ∧ n ≤ 0xDFFF then none
        else some (Char.ofNat n, rest3)
    | _ => none
  else none

/-- Parse the body of a JSON string (after the opening quote), returning the
decoded characters and the input remaining after the closing quote.  Raw
control characters are rejected, as by Python's strict `json.loads`.  The
fuel argument only forces termination; one unit is spent per decoded
character, so any fuel above the input length is enough. -/
def parseStringBodyF : Nat → List Char → Option (List Char × List Char)
  | 0, _ => none
  | _ + 1, [] => none
  | fuel + 1, c :: rest =>
    if c = '"' then some ([], rest)
    else if c = '\\' then
      match rest with
      | [] => none
      | e :: rest2 =>
        match escDecode e rest2 with
        | none => none
        | some (d, rest3) => (parseStringBodyF fuel rest3).map (fun p => (d :: p.1, p.2))
    else if 0x20 ≤ c.toNat then (parseStringBodyF fuel rest).map (fun p => (c :: p.1, p.2))
    else none

/-- Parse a JSON string body; the parser consumes at least one input character
per decoded character, so `length + 1` fuel always suffices. -/
def parseStringBody (l : List Char) : Option (List Char × List Char) :=
  parseStringBodyF (l.length + 1) l

/-- Parse one JSON value of the payload's value grammar: a string or `null`. -/
def parseJVal : List Char → Option (JVal × List Char)
  | [] => none
  | c :: rest =>
    if c = '"' then (parseStringBody rest).map (fun p => (JVal.str (String.mk p.1), p.2))
    else if c = 'n' then
      match rest with
      | u :: l1 :: l2 :: r =>
        if u = 'u' ∧ l1 = 'l' ∧ l2 = 'l' then some (JVal.null, r) else none
      | _ => none
    else none

/-- Parse one `"key": value` object member, skipping leading whitespace. -/
def parseMember (l : List Char) : Option ((String × JVal) × List Char) :=
  match skipWs l with
  | [] => none
  | c :: rest =>
    if c = '"' then
      match parseStringBody rest with
      | none => none
      | some (k, r1) =>
        match skipWs r1 with
        | [] => none
        | c2 :: r2 =>
          if c2 = ':' then
            match parseJVal (skipWs r2) with
            | none => none
            | some (v, r3) => some ((String.mk k, v), r3)
          else none
    else none

/-- Parse a comma-separated nonempty member list (fuelled recursion). -/
def parseMembers : Nat → List Char → Option (List (String × JVal) × List Char)
  | 0, _ => none
  | fuel + 1, l =>
    match parseMember l with
    | none => none
    | some (kv, r) =>
      match skipWs r with
      | [] => some ([kv], [])
      | c :: r2 =>
        if c = ',' then
          match parseMembers fuel r2 with
          | none => none
          | some (ms, r3) => some (kv :: ms, r3)
        else some ([kv], c :: r2)

/-- Parse a nonempty JSON object of string-or-null members, requiring only
whitespace after the closing brace. -/
def jsonParseObjL (l : List Char) : Option (List (String × JVal)) :=
  match skipWs l with
  | [] => none
  | c :: r =>
    if c = '\x7b' then
      match parseMembers (r.length + 1) r with
      | none => none
      | some (ms, r2) =>
        match skipWs r2 with
        | [] => none
        | c2 :: r3 =>
          if c2 = '\x7d' then
            if (skipWs r3).isEmpty then some ms else none
          else none
    else none

/-- Parse a JSON object file, `json.load`-style, for the payload grammar. -/
def jsonParsePayload (s : String) : Option (List (String × JVal)) :=
  jsonParseObjL s.data

/-- The two fields the script reads from `flow.client_config`. -/
structure ClientConfig where
  client_id : String
  client_secret : String
deriving DecidableEq

/-- A Python `datetime` as far as the script uses it: such an object is always
truthy, and `isoformat()` yields its ISO-8601 rendering. -/
structure PyDatetime where
  isoformat : String
deriving DecidableEq

/-- The credential object returned by the OAuth flow delegate; the script reads
`refresh_token`, `token`, and `expiry`, any of which may be `None`. -/
structure Creds where
  refresh_token : Option String
  token : Option String
  expiry : Option PyDatetime
deriving DecidableEq

/-- The `payload` dictionary built by `run_flow`. -/
structure Payload where
  client_id : String
  client_secret : String
  refresh_token : Option String
  access_token : Option String
  token_expiry : Option String
deriving DecidableEq

/-- `payload = dict(client_id=..., client_secret=..., refresh_token=creds.refresh_token,
access_token=creds.token, token_expiry=creds.expiry.isoformat() if creds.expiry else None)`. -/
def mkPayload (cfg : ClientConfig) (creds : Creds) : Payload :=
  { client_id := cfg.client_id
    client_secret := cfg.client_secret
    refresh_token := creds.refresh_token
    access_token := creds.token
    token_expiry := match creds.expiry with | some d => some d.isoformat | none => none }

/-- JSON value of an optional string field: `null` for Python `None`. -/
def jvalOfOpt : Option String → JVal
  | some s => JVal.str s
  | none => JVal.null

/-- The payload dictionary's members, in insertion order. -/
def payloadMembers (p : Payload) : List (String × JVal) :=
  [("client_id", JVal.str p.client_id),
   ("client_secret", JVal.str p.client_secret),
   ("refresh_token", jvalOfOpt p.refresh_token),
   ("access_token", jvalOfOpt p.access_token),
   ("token_expiry", jvalOfOpt p.token_expiry)]

/-- Bytes written to `--output`: `json.dump(payload, fh, indent=2)` followed by
`fh.write("\n")`. -/
def outputFileContent (p : Payload) : String :=
  pyJsonDumpObj 2 (payloadMembers p) ++ "\n"

/-- Python `str()` of an optional string, as an f-string interpolates it:
`None` renders as the four characters `None`. -/
def pyStr : Option String → String
  | some s => s
  | none => "None"

/-- The three f-string lines built for `--env-file`. -/
def envLines (p : Payload) : List String :=
  ["YOUTUBE_CLIENT_ID=\"" ++ p.client_id ++ "\"",
   "YOUTUBE_CLIENT_SECRET=\"" ++ p.client_secret ++ "\"",
   "YOUTUBE_REFRESH_TOKEN=\"" ++ pyStr p.refresh_token ++ "\""]

/-- Bytes written to `--env-file`: `"\n".join(lines) + "\n"`. -/
def envFileContent (p : Payload) : String :=
  joinSep "\n" (envLines p) ++ "\n"

/-- Stdout produced by the three `print` calls when `--quiet` is absent. -/
def consoleOutput (p : Payload) : String :=
  "\nCopy these values into your environment (store securely):\n" ++ "\n" ++
    pyJsonDumpObj 2 (payloadMembers p) ++ "\n" ++
    "\nExport the client_id, client_secret, and refresh_token as env vars before running the service." ++ "\n"

/-- Split a character list at a separator character (model of path splitting). -/
def splitOnChar (sep : Char) : List Char → List (List Char)
  | [] => [[]]
  | c :: rest =>
    match splitOnChar sep rest with
    | [] => [[c]]
    | h :: t => if c = sep then [] :: h :: t else (c :: h) :: t

/-- `pathlib.Path(p).parent`: drop the last path component; the parent of a
bare filename is `"."`. -/
def parentDir (p : String) : String :=
  let parts := splitOnChar '/' p.data
  if parts.length ≤ 1 then "."
  else joinSep "/" (parts.dropLast.map String.mk)

/-- File-system state: file contents by path, plus which directories exist. -/
structure FS where
  files : String → Option String
  dirs : String → Bool

/-- Opening a path with mode `"w"` and writing `content` replaces whatever was
at that path. -/
def FS.write (fs : FS) (p : String) (content : String) : FS :=
  { fs with files := fun q => if q = p then some content else fs.files q }

/-- `Path(d).mkdir(parents=True, exist_ok=True)` (ancestor creation beyond the
direct target directory is abstracted away; the claims only concern the
target). -/
def FS.mkdirParents (fs : FS) (d : String) : FS :=
  { fs with dirs := fun q => if q = d then true else fs.dirs q }

/-- `pathlib.Path(p).exists()`. -/
def FS.pathExists (fs : FS) (p : String) : Bool :=
  (fs.files p).isSome || fs.dirs p

/-- One sink write as the script performs it: create the parent directory,
then open the target with mode `"w"` and write the full content. -/
def sinkWrite (fs : FS) (path content : String) : FS :=
  (fs.mkdirParents (parentDir path)).write path content

/-- Errors `run_flow` can propagate. -/
inductive PyError
  | fileNotFound (msg : String)
  | flowError (msg : String)
  | ioError (msg : String)
deriving DecidableEq

/-- Interactions with the OAuth flow delegate (the network/browser side). -/
inductive FlowCall
  | construct (clientSecretFile : String) (scopes : List String)
  | runConsole
  | runLocalServer (port : Nat)
deriving DecidableEq

/-- The environment a run executes in: the initial filesystem, the outcome of
parsing the client-secret file, the credential object (or error) each consent
variant would return, and which directory creations / file writes fail. -/
structure World where
  fs : FS
  secretsParse : Except PyError ClientConfig
  consoleCreds : Except PyError Creds
  localServerCreds : Except PyError Creds
  mkdirFails : String → Bool
  writeFails : String → Bool

/-- Observable outcome of a run: final filesystem, delegate calls made, bytes
printed to stdout, and the uncaught error, if any. -/
structure RunResult where
  fs : FS
  calls : List FlowCall
  stdout : String
  error : Option PyError

/-- One sink write with possible I/O failure: a failing `mkdir` raises before
anything changes; a failing write raises after the directory was created. -/
def doSink (w : World) (fs : FS) (path content : String) : Except (PyError × FS) FS :=
  if w.mkdirFails (parentDir path) then
    .error (.ioError ("mkdir failed: " ++ parentDir path), fs)
  else if w.writeFails path then
    .error (.ioError ("write failed: " ++ path), fs.mkdirParents (parentDir path))
  else .ok (sinkWrite fs path content)

/-- The script's `run_flow(client_secret_path, scopes, use_console, output,
env_file, quiet)`, with all effects made explicit against a `World`. -/
def run_flow (w : World) (client_secret_path : String) (scopes : List String)
    (use_console : Bool) (output : Option String) (env_file : Option String)
    (quiet : Bool) : RunResult :=
  if w.fs.pathExists client_secret_path = false then
    { fs := w.fs, calls := [], stdout := "",
      error := some (.fileNotFound ("Client secret file not found: " ++ client_secret_path)) }
  else
    match w.secretsParse with
    | .error e => { fs := w.fs, calls := [], stdout := "", error := some e }
    | .ok cfg =>
      let calls := [FlowCall.construct client_secret_path scopes,
        if use_console then FlowCall.runConsole else FlowCall.runLocalServer 0]
      match (if use_console then w.consoleCreds else w.localServerCreds) with
      | .error e => { fs := w.fs, calls := calls, stdout := "", error := some e }
      | .ok creds =>
        let payload := mkPayload cfg creds
        match (match output with
               | none => Except.ok w.fs
               | some out => doSink w w.fs out (outputFileContent payload)) with
        | .error (e, fs1) => { fs := fs1, calls := calls, stdout := "", error := some e }
        | .ok fs1 =>
          match (match env_file with
                 | none => Except.ok fs1
                 | some ef => doSink w fs1 ef (envFileContent payload)) with
          | .error (e, fs2) => { fs := fs2, calls := calls, stdout := "", error := some e }
          | .ok fs2 =>
            { fs := fs2, calls := calls,
              stdout := if quiet then "" else consoleOutput payload,
              error := none }

/-- The cumulative effect of the requested sink writes on a filesystem:
the output sink (if any), then the env-file sink (if any), in the order
`run_flow` performs them. -/
def applySinks (fs : FS) (out env : Option String) (p : Payload) : FS :=
  match env with
  | none =>
    match out with
    | none => fs
    | some o => sinkWrite fs o (outputFileContent p)
  | some ef =>
    sinkWrite
      (match out with
       | none => fs
       | some o => sinkWrite fs o (outputFileContent p))
      ef (envFileContent p)

/-- `content` consists of exactly the three lines `l1`, `l2`, `l3`, each
newline-free, followed by a trailing newline. -/
def isThreeLineFile (content l1 l2 l3 : String) : Prop :=
  content = l1 ++ "\n" ++ l2 ++ "\n" ++ l3 ++ "\n" ∧
    '\n' ∉ l1.data ∧ '\n' ∉ l2.data ∧ '\n' ∉ l3.data

instance (content l1 l2 l3 : String) : Decidable (isThreeLineFile content l1 l2 l3) := by
  unfold isThreeLineFile
  infer_instance

/-- Strip an expected leading character sequence, if present. -/
def dropLeading : List Char → List Char → Option (List Char)
  | [], l => some l
  | _ :: _, [] => none
  | p :: ps, c :: cs => if c = p then dropLeading ps cs else none

/-- Parse the body of a double-quoted shell string that must span the whole
remaining input: characters up to an unescaped closing quote, with backslash
escaping the next character; nothing may follow the closing quote. -/
def shellDQBody : List Char → Option (List Char)
  | [] => none
  | c :: rest =>
    if c = '"' then if rest.isEmpty then some [] else none
    else if c = '\\' then
      match rest with
      | [] => none
      | e :: rest2 => (shellDQBody rest2).map (fun l => e :: l)
    else (shellDQBody rest).map (fun l => c :: l)

/-- Parse `line` as a well-formed shell assignment `name="value"` whose value
is a single double-quoted string covering the rest of the line; returns the
assigned value. -/
def parseDQAssign (name line : String) : Option String :=
  (dropLeading (name.data ++ ['=', '"']) line.data).bind fun rest =>
    (shellDQBody rest).map String.mk

/-! ### Concrete instances used by witnesses and counterexamples -/

/-- A fixed client configuration for concrete runs. -/
def cfgOk : ClientConfig := { client_id := "abc", client_secret := "xyz" }

/-- A fixed credential object with a refresh token and no expiry. -/
def credsOk : Creds := { refresh_token := some "r1", token := some "a1", expiry := none }

/-- A credential object whose provider returned no refresh token. -/
def credsNoRT : Creds := { refresh_token := none, token := some "a1", expiry := none }

/-- Filesystem holding only the client-secret file. -/
def fsOk : FS :=
  { files := fun p => if p = "client_secret.json" then some "sekrit" else none,
    dirs := fun _ => false }

/-- A world in which everything succeeds. -/
def wOk : World :=
  { fs := fsOk, secretsParse := .ok cfgOk, consoleCreds := .ok credsOk,
    localServerCreds := .ok credsOk, mkdirFails := fun _ => false,
    writeFails := fun _ => false }

/-- A world whose filesystem is empty: the client-secret path never exists. -/
def wMissing : World :=
  { fs := { files := fun _ => none, dirs := fun _ => false },
    secretsParse := .error (.flowError "unused"), consoleCreds := .error (.flowError "unused"),
    localServerCreds := .error (.flowError "unused"), mkdirFails := fun _ => false,
    writeFails := fun _ => false }

/-- Like `wOk`, except that writing the env file fails with an I/O error. -/
def wEnvWriteFails : World :=
  { fs := fsOk, secretsParse := .ok cfgOk, consoleCreds := .ok credsOk,
    localServerCreds := .ok credsOk, mkdirFails := fun _ => false,
    writeFails := fun p => if p = "creds.env" then true else false }

/-- A payload whose client id contains a newline character. -/
def pNewline : Payload :=
  { client_id := "abc\ndef", client_secret := "xyz", refresh_token := some "r1",
    access_token := some "a1", token_expiry := none }

/-- A payload whose client id contains a double-quote character. -/
def pQuote : Payload :=
  { client_id := "a\"b", client_secret := "s", refresh_token := some "r",
    access_token := some "a", token_expiry := none }

end GetRefreshToken

namespace GetRefreshToken

/-! ### Helper lemmas: hexadecimal digits and characters -/

theorem hexVal_hexDigit (n : Nat) (h : n < 16) : hexVal (hexDigit n) = some n := by
  interval_cases n <;> decide

theorem hex4val_enc (n : Nat) (h : n < 65536) :
    hex4val (hexDigit (n / 4096 % 16)) (hexDigit (n / 256 % 16))
      (hexDigit (n / 16 % 16)) (hexDigit (n % 16)) = some n := by
  simp only [hex4val, hexVal_hexDigit _ (Nat.mod_lt _ (by omega)), Option.bind_eq_bind,
    Option.some_bind, Option.pure_def, Option.some.injEq]
  omega

theorem char_toNat_valid (c : Char) : c.toNat < 1114112 ∧ ¬(55296 ≤ c.toNat ∧ c.toNat ≤ 57343) := by
  have h := c.valid
  simp only [Char.toNat]
  rcases h with h | h <;> omega

/-! ### Helper lemmas: JSON string escape decoding -/

theorem escDecode_u (rest : List Char) :
    escDecode 'u' rest =
      (match rest with
       | d1 :: d2 :: d3 :: d4 :: rest3 =>
         (hex4val d1 d2 d3 d4).bind fun n =>
           if 0xD800 ≤ n ∧ n ≤ 0xDBFF then
             match rest3 with
             | c2 :: e2 :: d5 :: d6 :: d7 :: d8 :: rest4 =>
               if c2 = '\\' ∧ e2 = 'u' then
                 (hex4val d5 d6 d7 d8).bind fun m =>
                   if 0xDC00 ≤ m ∧ m ≤ 0xDFFF then
                     some (Char.ofNat (0x10000 + (n - 0xD800) * 0x400 + (m - 0xDC00)), rest4)
                   else none
               else none
             | _ => none
           else if 0xDC00 ≤ n ∧ n ≤ 0xDFFF then none
           else some (Char.ofNat n, rest3)
       | _ => none) := rfl

theorem escDecode_u_bmp (n : Nat) (h1 : n < 65536) (h2 : ¬(55296 ≤ n ∧ n ≤ 57343))
    (r : List Char) : escDecode 'u' (hex4enc n ++ r) = some (Char.ofNat n, r) := by
  rw [escDecode_u]
  simp only [hex4enc, List.cons_append, List.nil_append]
  rw [hex4val_enc n h1]
  simp only [Option.some_bind, if_neg (by omega : ¬(55296 ≤ n ∧ n ≤ 56319)),
    if_neg (by omega : ¬(56320 ≤ n ∧ n ≤ 57343))]

theorem escDecode_u_pair (v : Nat) (hv : v < 1048576) (tail : List Char) :
    escDecode 'u' (hex4enc (55296 + v / 1024) ++
        ('\\' :: 'u' :: (hex4enc (56320 + v % 1024) ++ tail))) =
      some (Char.ofNat (65536 + v), tail) := by
  rw [escDecode_u]
  simp only [hex4enc, List.cons_append, List.nil_append]
  rw [hex4val_enc (55296 + v / 1024) (by omega), hex4val_enc (56320 + v % 1024) (by omega)]
  simp only [Option.some_bind,
    if_pos (by omega : 55296 ≤ 55296 + v / 1024 ∧ 55296 + v / 1024 ≤ 56319),
    if_pos (by omega : 56320 ≤ 56320 + v % 1024 ∧ 56320 + v % 1024 ≤ 57343)]
  have harith : 65536 + (55296 + v / 1024 - 55296) * 1024 + (56320 + v % 1024 - 56320) = 65536 + v := by
    omega
  rw [harith]
  simp

end GetRefreshToken

namespace GetRefreshToken

/-! ### Helper lemmas: the string-body parser inverts the JSON escape -/

theorem psbF_esc (fuel : Nat) (e : Char) (r2 r3 : List Char) (d : Char)
    (h : escDecode e r2 = some (d, r3)) :
    parseStringBodyF (fuel + 1) ('\\' :: e :: r2) =
      (parseStringBodyF fuel r3).map (fun p => (d :: p.1, p.2)) := by
  show (match escDecode e r2 with
        | none => none
        | some (d, rest3) =>
          (parseStringBodyF fuel rest3).map (fun p : List Char × List Char => (d :: p.1, p.2))) =
      (parseStringBodyF fuel r3).map (fun p => (d :: p.1, p.2))
  rw [h]

theorem psbF_plain (fuel : Nat) (c : Char) (r : List Char)
    (h1 : ¬ c = '"') (h2 : ¬ c = '\\') (h3 : 0x20 ≤ c.toNat) :
    parseStringBodyF (fuel + 1) (c :: r) =
      (parseStringBodyF fuel r).map (fun p => (c :: p.1, p.2)) := by
  show (if c = '"' then some ([], r)
    else if c = '\\' then
      match r with
      | [] => none
      | e :: rest2 =>
        match escDecode e rest2 with
        | none => none
        | some (d, rest3) =>
          (parseStringBodyF fuel rest3).map (fun p : List Char × List Char => (d :: p.1, p.2))
    else if 0x20 ≤ c.toNat then
      (parseStringBodyF fuel r).map (fun p : List Char × List Char => (c :: p.1, p.2))
    else none) = (parseStringBodyF fuel r).map (fun p => (c :: p.1, p.2))
  rw [if_neg h1, if_neg h2, if_pos h3]

theorem psbF_escChar (c : Char) (fuel : Nat) (tail : List Char) :
    parseStringBodyF (fuel + 1) (escChar c ++ tail) =
      (parseStringBodyF fuel tail).map (fun p => (c :: p.1, p.2)) := by
  have hval := char_toNat_valid c
  unfold escChar
  split_ifs with h1 h2 h3 h4 h5 h6 h7 h8 h9
  · subst h1; exact psbF_esc fuel '"' tail tail '"' rfl
  · subst h2; exact psbF_esc fuel '\\' tail tail '\\' rfl
  · subst h3; exact psbF_esc fuel 'b' tail tail '\x08' rfl
  · subst h4; exact psbF_esc fuel 't' tail tail '\x09' rfl
  · subst h5; exact psbF_esc fuel 'n' tail tail '\x0a' rfl
  · subst h6; exact psbF_esc fuel 'f' tail tail '\x0c' rfl
  · subst h7; exact psbF_esc fuel 'r' tail tail '\x0d' rfl
  · exact psbF_plain fuel c tail h1 h2 h8.1
  · have hd := escDecode_u_bmp c.toNat h9 hval.2 tail
    have hstep := psbF_esc fuel 'u' (hex4enc c.toNat ++ tail) tail (Char.ofNat c.toNat) hd
    rw [Char.ofNat_toNat] at hstep
    exact hstep
  · have hlt : c.toNat - 65536 < 1048576 := by omega
    have hd := escDecode_u_pair (c.toNat - 65536) hlt tail
    have hstep := psbF_esc fuel 'u'
      (hex4enc (55296 + (c.toNat - 65536) / 1024) ++
        ('\\' :: 'u' :: (hex4enc (56320 + (c.toNat - 65536) % 1024) ++ tail)))
      tail (Char.ofNat (65536 + (c.toNat - 65536))) hd
    rw [show 65536 + (c.toNat - 65536) = c.toNat by omega, Char.ofNat_toNat] at hstep
    exact hstep

theorem escChar_length_pos (c : Char) : 1 ≤ (escChar c).length := by
  unfold escChar
  split_ifs <;> simp [hex4enc]

theorem escL_length_ge (cs : List Char) : cs.length ≤ (escL cs).length := by
  induction cs with
  | nil => simp [escL]
  | cons c cs ih =>
    have h1 := escChar_length_pos c
    simp only [escL, List.map_cons, List.flatten_cons, List.length_append, List.length_cons] at *
    omega

theorem psbF_escL (cs : List Char) :
    ∀ fuel, cs.length < fuel → ∀ r, parseStringBodyF fuel (escL cs ++ '"' :: r) = some (cs, r) := by
  induction cs with
  | nil =>
    intro fuel h r
    obtain ⟨f, rfl⟩ : ∃ f, fuel = f + 1 := ⟨fuel - 1, by omega⟩
    rfl
  | cons c cs ih =>
    intro fuel h r
    obtain ⟨f, rfl⟩ : ∃ f, fuel = f + 1 := ⟨fuel - 1, by omega⟩
    have hsh : escL (c :: cs) ++ '"' :: r = escChar c ++ (escL cs ++ '"' :: r) := by
      simp [escL]
    rw [hsh, psbF_escChar, ih f (by simp only [List.length_cons] at h; omega) r]
    rfl

theorem parseStringBody_escL (cs : List Char) (r : List Char) :
    parseStringBody (escL cs ++ '"' :: r) = some (cs, r) := by
  apply psbF_escL
  have h1 := escL_length_ge cs
  simp only [List.length_append, List.length_cons]
  omega

end GetRefreshToken

namespace GetRefreshToken

/-! ### Helper lemmas: data of string literals and appends -/

theorem str_data_append (a b : String) : (a ++ b).data = a.data ++ b.data := by
  cases a; cases b; rfl

theorem mk_data (l : List Char) : (String.mk l).data = l := rfl

theorem data_quote : ("\"" : String).data = ['"'] := rfl

theorem data_keyColon : ("\": " : String).data = ['"', ':', ' '] := rfl

theorem data_commaNl : (",\n" : String).data = [',', '\n'] := rfl

theorem data_openBrace : ("\x7b\n" : String).data = ['\x7b', '\n'] := rfl

theorem data_closeBrace : ("\n\x7d" : String).data = ['\n', '\x7d'] := rfl

theorem data_nl : ("\n" : String).data = ['\n'] := rfl

theorem data_null : ("null" : String).data = ['n', 'u', 'l', 'l'] := rfl

/-! ### Helper lemmas: whitespace skipping -/

theorem skipWs_space (l : List Char) : skipWs (' ' :: l) = skipWs l := by simp [skipWs, wsChar]

theorem skipWs_nl (l : List Char) : skipWs ('\n' :: l) = skipWs l := by simp [skipWs, wsChar]

theorem skipWs_quote (l : List Char) : skipWs ('"' :: l) = '"' :: l := by simp [skipWs, wsChar]

theorem skipWs_colon (l : List Char) : skipWs (':' :: l) = ':' :: l := by simp [skipWs, wsChar]

theorem skipWs_comma (l : List Char) : skipWs (',' :: l) = ',' :: l := by simp [skipWs, wsChar]

theorem skipWs_rbrace (l : List Char) : skipWs ('\x7d' :: l) = '\x7d' :: l := by
  simp [skipWs, wsChar]

theorem skipWs_lbrace (l : List Char) : skipWs ('\x7b' :: l) = '\x7b' :: l := by
  simp [skipWs, wsChar]

theorem skipWs_nChar (l : List Char) : skipWs ('n' :: l) = 'n' :: l := by simp [skipWs, wsChar]

theorem skipWs_dumpJVal (v : JVal) (r : List Char) :
    skipWs ((dumpJVal v).data ++ r) = (dumpJVal v).data ++ r := by
  cases v with
  | str s =>
    have hd : (dumpJVal (JVal.str s)).data ++ r = '"' :: (escL s.data ++ ('"' :: r)) := by
      simp [dumpJVal, str_data_append, escapeString, data_quote, mk_data]
    rw [hd, skipWs_quote]
  | null =>
    have hd : (dumpJVal JVal.null).data ++ r = 'n' :: 'u' :: 'l' :: 'l' :: r := by
      simp [dumpJVal, data_null]
    rw [hd, skipWs_nChar]

/-! ### Helper lemmas: value, member and object parsing invert the dump -/

theorem parseJVal_dump (v : JVal) (r : List Char) :
    parseJVal ((dumpJVal v).data ++ r) = some (v, r) := by
  cases v with
  | str s =>
    have hd : (dumpJVal (JVal.str s)).data ++ r = '"' :: (escL s.data ++ ('"' :: r)) := by
      simp [dumpJVal, str_data_append, escapeString, data_quote, mk_data]
    rw [hd]
    show (parseStringBody (escL s.data ++ ('"' :: r))).map
        (fun p => (JVal.str (String.mk p.1), p.2)) = some (JVal.str s, r)
    rw [parseStringBody_escL]
    rfl
  | null =>
    have hd : (dumpJVal JVal.null).data ++ r = 'n' :: 'u' :: 'l' :: 'l' :: r := by
      simp [dumpJVal, data_null]
    rw [hd]
    rfl

end GetRefreshToken

namespace GetRefreshToken

theorem parseMember_dump (m : String × JVal) (r : List Char) :
    parseMember ((dumpMember 2 m).data ++ r) = some (m, r) := by
  have hd : (dumpMember 2 m).data ++ r =
      ' ' :: ' ' :: '"' :: (escL m.1.data ++ ('"' :: ':' :: ' ' :: ((dumpJVal m.2).data ++ r))) := by
    simp [dumpMember, str_data_append, escapeString, data_quote, data_keyColon, mk_data,
      List.replicate]
  rw [hd]
  unfold parseMember
  rw [skipWs_space, skipWs_space, skipWs_quote]
  simp only []
  rw [parseStringBody_escL]
  simp only []
  rw [skipWs_colon]
  simp only []
  rw [skipWs_space, skipWs_dumpJVal, parseJVal_dump]
  simp

theorem parseMember_nl (l : List Char) : parseMember ('\n' :: l) = parseMember l := by
  unfold parseMember
  rw [skipWs_nl]

theorem parseMembers_nl (fuel : Nat) (l : List Char) :
    parseMembers fuel ('\n' :: l) = parseMembers fuel l := by
  cases fuel with
  | zero => rfl
  | succ f =>
    unfold parseMembers
    rw [parseMember_nl]

end GetRefreshToken

namespace GetRefreshToken

theorem parseMembers_render (ms : List (String × JVal)) :
    ∀ fuel, ms ≠ [] → ms.length ≤ fuel → ∀ r t, skipWs r = '\x7d' :: t →
      parseMembers fuel ((joinSep ",\n" (ms.map (dumpMember 2))).data ++ r) =
        some (ms, '\x7d' :: t) := by
  induction ms with
  | nil => intro _ h; exact absurd rfl h
  | cons m ms ih =>
    intro fuel _ hf r t hr
    obtain ⟨f, rfl⟩ : ∃ f, fuel = f + 1 := ⟨fuel - 1, by simp at hf; omega⟩
    cases ms with
    | nil =>
      have hj : joinSep ",\n" (([m] : List (String × JVal)).map (dumpMember 2)) = dumpMember 2 m := rfl
      rw [hj]
      unfold parseMembers
      rw [parseMember_dump m r]
      simp only []
      rw [hr]
      simp
    | cons m2 ms2 =>
      have hj : joinSep ",\n" ((m :: m2 :: ms2).map (dumpMember 2)) =
          dumpMember 2 m ++ ",\n" ++ joinSep ",\n" ((m2 :: ms2).map (dumpMember 2)) := rfl
      rw [hj]
      have hd : (dumpMember 2 m ++ ",\n" ++ joinSep ",\n" ((m2 :: ms2).map (dumpMember 2))).data ++ r
          = (dumpMember 2 m).data ++
              (',' :: '\n' :: ((joinSep ",\n" ((m2 :: ms2).map (dumpMember 2))).data ++ r)) := by
        simp [str_data_append, data_commaNl]
      rw [hd]
      unfold parseMembers
      rw [parseMember_dump]
      simp only []
      rw [skipWs_comma]
      simp only [reduceIte]
      rw [parseMembers_nl, ih f (by simp) (by simp at hf ⊢; omega) r t hr]

theorem joinSep_data_len (ms : List (String × JVal)) :
    ms.length ≤ (joinSep ",\n" (ms.map (dumpMember 2))).data.length + 1 := by
  induction ms with
  | nil => simp [joinSep]
  | cons m ms ih =>
    cases ms with
    | nil => simp [joinSep]
    | cons m2 ms2 =>
      have hj : joinSep ",\n" ((m :: m2 :: ms2).map (dumpMember 2)) =
          dumpMember 2 m ++ ",\n" ++ joinSep ",\n" ((m2 :: ms2).map (dumpMember 2)) := rfl
      rw [hj]
      simp only [str_data_append, data_commaNl, List.length_append, List.length_cons] at *
      omega

theorem jsonParsePayload_dump (ms : List (String × JVal)) (h : ms ≠ []) :
    jsonParsePayload (pyJsonDumpObj 2 ms ++ "\n") = some ms := by
  have hne : ms.isEmpty = false := by
    cases ms
    · exact absurd rfl h
    · rfl
  have hd : (pyJsonDumpObj 2 ms ++ "\n").data =
      '\x7b' :: ('\n' :: ((joinSep ",\n" (ms.map (dumpMember 2))).data ++
        ('\n' :: '\x7d' :: '\n' :: []))) := by
    simp [pyJsonDumpObj, hne, str_data_append, data_openBrace, data_closeBrace, data_nl]
  unfold jsonParsePayload jsonParseObjL
  rw [hd, skipWs_lbrace]
  simp only [reduceIte]
  have hrw := parseMembers_render ms
    (('\n' :: ((joinSep ",\n" (ms.map (dumpMember 2))).data ++
      ('\n' :: '\x7d' :: '\n' :: []))).length + 1) h
    (by have := joinSep_data_len ms
        simp only [List.length_cons, List.length_append]
        omega)
    ('\n' :: '\x7d' :: '\n' :: []) ('\n' :: [])
    (by rw [skipWs_nl, skipWs_rbrace])
  rw [parseMembers_nl, hrw]
  simp only []
  rw [skipWs_rbrace]
  simp only [reduceIte]
  rw [skipWs_nl]
  simp [skipWs]

end GetRefreshToken

namespace GetRefreshToken

/-! ### Helper lemmas: run_flow case reductions -/

theorem run_flow_notfound (w : World) (path : String) (scopes : List String) (uc : Bool)
    (out env : Option String) (q : Bool) (h : w.fs.pathExists path = false) :
    run_flow w path scopes uc out env q =
      { fs := w.fs, calls := [], stdout := "",
        error := some (.fileNotFound ("Client secret file not found: " ++ path)) } := by
  simp [run_flow, h]

theorem run_flow_parse_error (w : World) (path : String) (scopes : List String) (uc : Bool)
    (out env : Option String) (q : Bool) (e : PyError)
    (hex : w.fs.pathExists path = true) (h : w.secretsParse = .error e) :
    run_flow w path scopes uc out env q =
      { fs := w.fs, calls := [], stdout := "", error := some e } := by
  simp [run_flow, hex, h]

theorem run_flow_flow_error (w : World) (path : String) (scopes : List String) (uc : Bool)
    (out env : Option String) (q : Bool) (cfg : ClientConfig) (e : PyError)
    (hex : w.fs.pathExists path = true) (hparse : w.secretsParse = .ok cfg)
    (hcreds : (if uc then w.consoleCreds else w.localServerCreds) = .error e) :
    run_flow w path scopes uc out env q =
      { fs := w.fs,
        calls := [FlowCall.construct path scopes,
          if uc then FlowCall.runConsole else FlowCall.runLocalServer 0],
        stdout := "", error := some e } := by
  simp [run_flow, hex, hparse, hcreds]

theorem run_flow_success (w : World) (path : String) (scopes : List String) (uc : Bool)
    (out env : Option String) (q : Bool) (cfg : ClientConfig) (creds : Creds)
    (hex : w.fs.pathExists path = true) (hparse : w.secretsParse = .ok cfg)
    (hcreds : (if uc then w.consoleCreds else w.localServerCreds) = .ok creds)
    (hmk : ∀ d, w.mkdirFails d = false) (hw : ∀ p, w.writeFails p = false) :
    run_flow w path scopes uc out env q =
      { fs := applySinks w.fs out env (mkPayload cfg creds),
        calls := [FlowCall.construct path scopes,
          if uc then FlowCall.runConsole else FlowCall.runLocalServer 0],
        stdout := if q then "" else consoleOutput (mkPayload cfg creds),
        error := none } := by
  cases out <;> cases env <;>
    simp [run_flow, doSink, applySinks, hex, hparse, hcreds, hmk, hw]

/-! ### Helper lemmas: filesystem sink writes -/

theorem fsExt (a b : FS) (hf : a.files = b.files) (hd : a.dirs = b.dirs) : a = b := by
  cases a; cases b; cases hf; cases hd; rfl

theorem sinkWrite_files_self (fs : FS) (p c : String) :
    (sinkWrite fs p c).files p = some c := by
  simp [sinkWrite, FS.write, FS.mkdirParents]

theorem sinkWrite_files_other (fs : FS) (p c q : String) (h : ¬ q = p) :
    (sinkWrite fs p c).files q = fs.files q := by
  simp [sinkWrite, FS.write, FS.mkdirParents, h]

theorem sinkWrite_dirs_parent (fs : FS) (p c : String) :
    (sinkWrite fs p c).dirs (parentDir p) = true := by
  simp [sinkWrite, FS.write, FS.mkdirParents]

theorem sinkWrite_idem (fs : FS) (p c : String) :
    sinkWrite (sinkWrite fs p c) p c = sinkWrite fs p c := by
  apply fsExt
  · funext q
    by_cases h : q = p <;> simp [sinkWrite, FS.write, FS.mkdirParents, h]
  · funext q
    by_cases h : q = parentDir p <;> simp [sinkWrite, FS.write, FS.mkdirParents, h]

end GetRefreshToken

namespace GetRefreshToken

/-! ### Further helper lemmas for the claims -/

theorem run_flow_post_flow (w : World) (path : String) (scopes : List String) (uc : Bool)
    (out env : Option String) (q : Bool) (cfg : ClientConfig) (creds : Creds)
    (hex : w.fs.pathExists path = true) (hparse : w.secretsParse = .ok cfg)
    (hcreds : (if uc then w.consoleCreds else w.localServerCreds) = .ok creds) :
    run_flow w path scopes uc out env q =
      (match (match out with
              | none => Except.ok w.fs
              | some o => doSink w w.fs o (outputFileContent (mkPayload cfg creds))) with
       | .error (e, fs1) =>
         { fs := fs1,
           calls := [FlowCall.construct path scopes,
             if uc then FlowCall.runConsole else FlowCall.runLocalServer 0],
           stdout := "", error := some e }
       | .ok fs1 =>
         match (match env with
                | none => Except.ok fs1
                | some ef => doSink w fs1 ef (envFileContent (mkPayload cfg creds))) with
         | .error (e, fs2) =>
           { fs := fs2,
             calls := [FlowCall.construct path scopes,
               if uc then FlowCall.runConsole else FlowCall.runLocalServer 0],
             stdout := "", error := some e }
         | .ok fs2 =>
           { fs := fs2,
             calls := [FlowCall.construct path scopes,
               if uc then FlowCall.runConsole else FlowCall.runLocalServer 0],
             stdout := if q then "" else consoleOutput (mkPayload cfg creds),
             error := none }) := by
  simp [run_flow, hex, hparse, hcreds]

theorem run_flow_calls (w : World) (path : String) (scopes : List String) (uc : Bool)
    (out env : Option String) (q : Bool) (cfg : ClientConfig)
    (hex : w.fs.pathExists path = true) (hparse : w.secretsParse = .ok cfg) :
    (run_flow w path scopes uc out env q).calls =
      [FlowCall.construct path scopes,
        if uc then FlowCall.runConsole else FlowCall.runLocalServer 0] := by
  cases hcr : (if uc then w.consoleCreds else w.localServerCreds) with
  | error e => rw [run_flow_flow_error w path scopes uc out env q cfg e hex hparse hcr]
  | ok creds =>
    rw [run_flow_post_flow w path scopes uc out env q cfg creds hex hparse hcr]
    split
    · rfl
    · split <;> rfl

theorem doSink_ok (w : World) (fs : FS) (p c : String) (fs' : FS)
    (h : doSink w fs p c = .ok fs') : fs' = sinkWrite fs p c := by
  unfold doSink at h
  split_ifs at h
  simp_all

/-! ### The claims -/

/-- Claim C1: when the client-secret path does not exist, `run_flow` raises a
file-not-found error before constructing or invoking the OAuth flow delegate:
no delegate call is made, the filesystem is unchanged (so no output file is
written), and nothing is printed. -/
theorem claim_C1 (w : World) (path : String) (scopes : List String) (uc : Bool)
    (out env : Option String) (q : Bool) (h : w.fs.pathExists path = false) :
    run_flow w path scopes uc out env q =
      { fs := w.fs, calls := [], stdout := "",
        error := some (.fileNotFound ("Client secret file not found: " ++ path)) } :=
  run_flow_notfound w path scopes uc out env q h

/-- Witness for claim C1 at a concrete world with an empty filesystem. -/
theorem claim_C1_witness :
    wMissing.fs.pathExists "client_secret.json" = false ∧
    run_flow wMissing "client_secret.json" ["https://www.googleapis.com/auth/youtube.upload"]
        false none none false =
      { fs := wMissing.fs, calls := [], stdout := "",
        error := some (.fileNotFound ("Client secret file not found: " ++ "client_secret.json")) } :=
  ⟨rfl, claim_C1 wMissing "client_secret.json" _ false none none false rfl⟩

/-- Claim C2: on a successful flow with `--output` set, the file written to the
output path is exactly the payload object serialized by `json.dump` with
2-space indentation plus a trailing newline; the object has exactly the five
keys `client_id`, `client_secret`, `refresh_token`, `access_token`,
`token_expiry` in that order, and `token_expiry` is the ISO-8601 string when
the credential object has an expiry and JSON null when it does not.  (The env
file, when also requested, must target a different path, since it is written
after the JSON file.) -/
theorem claim_C2 (w : World) (path : String) (scopes : List String) (uc : Bool)
    (out : String) (env : Option String) (q : Bool) (cfg : ClientConfig) (creds : Creds)
    (hex : w.fs.pathExists path = true) (hparse : w.secretsParse = .ok cfg)
    (hcreds : (if uc then w.consoleCreds else w.localServerCreds) = .ok creds)
    (hmk : ∀ d, w.mkdirFails d = false) (hw : ∀ p, w.writeFails p = false)
    (hne : env ≠ some out) :
    (run_flow w path scopes uc (some out) env q).fs.files out =
      some (pyJsonDumpObj 2 (payloadMembers (mkPayload cfg creds)) ++ "\n") ∧
    (payloadMembers (mkPayload cfg creds)).map Prod.fst =
      ["client_id", "client_secret", "refresh_token", "access_token", "token_expiry"] ∧
    payloadMembers (mkPayload cfg creds) =
      [("client_id", JVal.str cfg.client_id),
       ("client_secret", JVal.str cfg.client_secret),
       ("refresh_token", jvalOfOpt creds.refresh_token),
       ("access_token", jvalOfOpt creds.token),
       ("token_expiry", match creds.expiry with
          | some d => JVal.str d.isoformat
          | none => JVal.null)] := by
  refine ⟨?_, ?_, ?_⟩
  · rw [run_flow_success w path scopes uc (some out) env q cfg creds hex hparse hcreds hmk hw]
    cases env with
    | none => simp [applySinks, sinkWrite_files_self, outputFileContent]
    | some ef =>
      have hne' : ¬ out = ef := fun hh => hne (by rw [hh])
      show (sinkWrite (sinkWrite w.fs out (outputFileContent (mkPayload cfg creds))) ef
          (envFileContent (mkPayload cfg creds))).files out = _
      rw [sinkWrite_files_other _ _ _ _ hne', sinkWrite_files_self]
      simp [outputFileContent]
  · simp [payloadMembers]
  · cases hcE : creds.expiry <;> simp [payloadMembers, mkPayload, jvalOfOpt, hcE]

/-- Witness for claim C2 at a concrete successful world. -/
theorem claim_C2_witness :
    wOk.fs.pathExists "client_secret.json" = true ∧
    wOk.secretsParse = .ok cfgOk ∧
    (if false then wOk.consoleCreds else wOk.localServerCreds) = .ok credsOk ∧
    (∀ d, wOk.mkdirFails d = false) ∧ (∀ p, wOk.writeFails p = false) ∧
    (some "creds.env" : Option String) ≠ some "out.json" ∧
    ((run_flow wOk "client_secret.json" ["s"] false (some "out.json") (some "creds.env")
        false).fs.files "out.json" =
      some (pyJsonDumpObj 2 (payloadMembers (mkPayload cfgOk credsOk)) ++ "\n") ∧
     (payloadMembers (mkPayload cfgOk credsOk)).map Prod.fst =
      ["client_id", "client_secret", "refresh_token", "access_token", "token_expiry"] ∧
     payloadMembers (mkPayload cfgOk credsOk) =
      [("client_id", JVal.str cfgOk.client_id),
       ("client_secret", JVal.str cfgOk.client_secret),
       ("refresh_token", jvalOfOpt credsOk.refresh_token),
       ("access_token", jvalOfOpt credsOk.token),
       ("token_expiry", match credsOk.expiry with
          | some d => JVal.str d.isoformat
          | none => JVal.null)]) :=
  ⟨rfl, rfl, rfl, fun _ => rfl, fun _ => rfl, by decide,
   claim_C2 wOk "client_secret.json" ["s"] false "out.json" (some "creds.env") false cfgOk
     credsOk rfl rfl rfl (fun _ => rfl) (fun _ => rfl) (by decide)⟩

end GetRefreshToken

namespace GetRefreshToken

/-- Claim C3 counterexample: the claim as stated fails when an interpolated
value contains a newline — with a client id of `abc\ndef` the env file does
not consist of three newline-free lines matching the documented patterns. -/
theorem claim_C3_counterexample :
    ¬ isThreeLineFile (envFileContent pNewline)
        ("YOUTUBE_CLIENT_ID=\"" ++ pNewline.client_id ++ "\"")
        ("YOUTUBE_CLIENT_SECRET=\"" ++ pNewline.client_secret ++ "\"")
        ("YOUTUBE_REFRESH_TOKEN=\"" ++ pyStr pNewline.refresh_token ++ "\"") := by
  decide

/-- Claim C3 (amended): on a successful flow with `--env-file` set, the file
written to the env-file path is the three documented pattern lines joined by
newlines with a trailing newline; provided the interpolated values contain no
newline character, the file consists of exactly those three lines plus the
trailing newline. -/
theorem claim_C3 (w : World) (path : String) (scopes : List String) (uc : Bool)
    (out : Option String) (ef : String) (q : Bool) (cfg : ClientConfig) (creds : Creds)
    (hex : w.fs.pathExists path = true) (hparse : w.secretsParse = .ok cfg)
    (hcreds : (if uc then w.consoleCreds else w.localServerCreds) = .ok creds)
    (hmk : ∀ d, w.mkdirFails d = false) (hw : ∀ p, w.writeFails p = false)
    (h1 : '\n' ∉ cfg.client_id.data) (h2 : '\n' ∉ cfg.client_secret.data)
    (h3 : '\n' ∉ (pyStr creds.refresh_token).data) :
    (run_flow w path scopes uc out (some ef) q).fs.files ef =
      some (envFileContent (mkPayload cfg creds)) ∧
    isThreeLineFile (envFileContent (mkPayload cfg creds))
      ("YOUTUBE_CLIENT_ID=\"" ++ cfg.client_id ++ "\"")
      ("YOUTUBE_CLIENT_SECRET=\"" ++ cfg.client_secret ++ "\"")
      ("YOUTUBE_REFRESH_TOKEN=\"" ++ pyStr creds.refresh_token ++ "\"") := by
  refine ⟨?_, ?_, ?_, ?_, ?_⟩
  · rw [run_flow_success w path scopes uc out (some ef) q cfg creds hex hparse hcreds hmk hw]
    cases out <;> simp [applySinks, sinkWrite_files_self]
  · simp [envFileContent, envLines, mkPayload, joinSep, String.append_assoc]
  · rw [str_data_append, str_data_append]
    simp only [List.mem_append, not_or]
    exact ⟨⟨by decide, h1⟩, by decide⟩
  · rw [str_data_append, str_data_append]
    simp only [List.mem_append, not_or]
    exact ⟨⟨by decide, h2⟩, by decide⟩
  · rw [str_data_append, str_data_append]
    simp only [List.mem_append, not_or]
    exact ⟨⟨by decide, h3⟩, by decide⟩

/-- Witness for claim C3 at a concrete successful world with newline-free
credential values. -/
theorem claim_C3_witness :
    wOk.fs.pathExists "client_secret.json" = true ∧
    wOk.secretsParse = .ok cfgOk ∧
    (if false then wOk.consoleCreds else wOk.localServerCreds) = .ok credsOk ∧
    '\n' ∉ cfgOk.client_id.data ∧ '\n' ∉ cfgOk.client_secret.data ∧
    '\n' ∉ (pyStr credsOk.refresh_token).data ∧
    ((run_flow wOk "client_secret.json" ["s"] false none (some "creds.env") true).fs.files
        "creds.env" = some (envFileContent (mkPayload cfgOk credsOk)) ∧
     isThreeLineFile (envFileContent (mkPayload cfgOk credsOk))
       ("YOUTUBE_CLIENT_ID=\"" ++ cfgOk.client_id ++ "\"")
       ("YOUTUBE_CLIENT_SECRET=\"" ++ cfgOk.client_secret ++ "\"")
       ("YOUTUBE_REFRESH_TOKEN=\"" ++ pyStr credsOk.refresh_token ++ "\"")) :=
  ⟨rfl, rfl, rfl, by decide, by decide, by decide,
   claim_C3 wOk "client_secret.json" ["s"] false none "creds.env" true cfgOk credsOk
     rfl rfl rfl (fun _ => rfl) (fun _ => rfl) (by decide) (by decide) (by decide)⟩

/-- Claim C4 (amended): if the run aborts before or during the authorization
flow (missing client secret, client-secret parse failure, or flow failure),
the filesystem is unchanged, so no output file is written; if the run
completes without error, the final filesystem is exactly the initial one with
every requested sink written (output sink first, then env sink).  An I/O
failure while writing a later sink aborts the run but can leave earlier sinks
already written, as the counterexample shows. -/
theorem claim_C4 (w : World) (path : String) (scopes : List String) (uc : Bool)
    (out env : Option String) (q : Bool) :
    (w.fs.pathExists path = false → (run_flow w path scopes uc out env q).fs = w.fs) ∧
    (∀ e, w.fs.pathExists path = true → w.secretsParse = .error e →
      (run_flow w path scopes uc out env q).fs = w.fs) ∧
    (∀ cfg e, w.fs.pathExists path = true → w.secretsParse = .ok cfg →
      (if uc then w.consoleCreds else w.localServerCreds) = .error e →
      (run_flow w path scopes uc out env q).fs = w.fs) ∧
    (∀ cfg creds, w.secretsParse = .ok cfg →
      (if uc then w.consoleCreds else w.localServerCreds) = .ok creds →
      (run_flow w path scopes uc out env q).error = none →
      (run_flow w path scopes uc out env q).fs =
        applySinks w.fs out env (mkPayload cfg creds)) := by
  refine ⟨?_, ?_, ?_, ?_⟩
  · intro h
    rw [run_flow_notfound w path scopes uc out env q h]
  · intro e hex h
    rw [run_flow_parse_error w path scopes uc out env q e hex h]
  · intro cfg e hex hparse hcr
    rw [run_flow_flow_error w path scopes uc out env q cfg e hex hparse hcr]
  · intro cfg creds hparse hcreds herr
    by_cases hex : w.fs.pathExists path = true
    · rw [run_flow_post_flow w path scopes uc out env q cfg creds hex hparse hcreds] at herr ⊢
      cases out with
      | none =>
        simp only [] at herr ⊢
        cases env with
        | none => simp [applySinks]
        | some ef =>
          simp only [] at herr ⊢
          revert herr
          cases hds : doSink w w.fs ef (envFileContent (mkPayload cfg creds)) with
          | error p =>
            rcases p with ⟨e, fs2⟩
            intro herr
            simp at herr
          | ok fs2 =>
            intro herr
            rw [doSink_ok w w.fs ef _ fs2 hds]
            simp [applySinks]
      | some o =>
        simp only [] at herr ⊢
        revert herr
        cases hds1 : doSink w w.fs o (outputFileContent (mkPayload cfg creds)) with
        | error p =>
          rcases p with ⟨e, fs1⟩
          intro herr
          simp at herr
        | ok fs1 =>
          intro herr
          simp only [] at herr ⊢
          cases env with
          | none =>
            rw [doSink_ok w w.fs o _ fs1 hds1]
            simp [applySinks]
          | some ef =>
            simp only [] at herr ⊢
            revert herr
            cases hds2 : doSink w fs1 ef (envFileContent (mkPayload cfg creds)) with
            | error p =>
              rcases p with ⟨e, fs2⟩
              intro herr
              simp at herr
            | ok fs2 =>
              intro herr
              rw [doSink_ok w fs1 ef _ fs2 hds2, doSink_ok w w.fs o _ fs1 hds1]
              simp [applySinks]
    · have hex' : w.fs.pathExists path = false := by
        simpa using hex
      rw [run_flow_notfound w path scopes uc out env q hex'] at herr
      simp at herr

/-- Claim C4 counterexample: with both sinks requested and the env-file write
failing, the run aborts with an error, yet the output JSON file has already
been produced — so the original claim's "aborts before producing any output
file" does not hold in general. -/
theorem claim_C4_counterexample :
    (run_flow wEnvWriteFails "client_secret.json" ["s"] false (some "out.json")
        (some "creds.env") true).error.isSome = true ∧
    (run_flow wEnvWriteFails "client_secret.json" ["s"] false (some "out.json")
        (some "creds.env") true).fs.files "out.json" =
      some (outputFileContent (mkPayload cfgOk credsOk)) ∧
    (run_flow wEnvWriteFails "client_secret.json" ["s"] false (some "out.json")
        (some "creds.env") true).fs.files "creds.env" = none := by
  refine ⟨rfl, ?_, rfl⟩
  rfl

/-- Witness for claim C4 at a concrete world where the whole run succeeds. -/
theorem claim_C4_witness :
    wOk.secretsParse = .ok cfgOk ∧
    (if false then wOk.consoleCreds else wOk.localServerCreds) = .ok credsOk ∧
    (run_flow wOk "client_secret.json" ["s"] false (some "out.json") (some "creds.env")
        true).error = none ∧
    (run_flow wOk "client_secret.json" ["s"] false (some "out.json") (some "creds.env")
        true).fs =
      applySinks wOk.fs (some "out.json") (some "creds.env") (mkPayload cfgOk credsOk) :=
  ⟨rfl, rfl, rfl,
   (claim_C4 wOk "client_secret.json" ["s"] false (some "out.json") (some "creds.env")
     true).2.2.2 cfgOk credsOk rfl rfl rfl⟩

/-- Claim C5: round trip — for every credential payload, re-parsing the JSON
file written for `--output` yields exactly the payload's five members, with
the string fields recovered byte-for-byte. -/
theorem claim_C5 (p : Payload) :
    jsonParsePayload (outputFileContent p) = some (payloadMembers p) := by
  have h : payloadMembers p ≠ [] := by simp [payloadMembers]
  have hrt := jsonParsePayload_dump (payloadMembers p) h
  simpa [outputFileContent] using hrt

end GetRefreshToken

namespace GetRefreshToken

/-- Claim C6: on a successful run, when `--quiet` is set nothing is printed to
standard output; when it is not set, the instructional banner, the JSON
payload, and the closing instruction are printed. -/
theorem claim_C6 (w : World) (path : String) (scopes : List String) (uc : Bool)
    (out env : Option String) (q : Bool) (cfg : ClientConfig) (creds : Creds)
    (hex : w.fs.pathExists path = true) (hparse : w.secretsParse = .ok cfg)
    (hcreds : (if uc then w.consoleCreds else w.localServerCreds) = .ok creds)
    (hmk : ∀ d, w.mkdirFails d = false) (hw : ∀ p, w.writeFails p = false) :
    (q = true → (run_flow w path scopes uc out env q).stdout = "") ∧
    (q = false → (run_flow w path scopes uc out env q).stdout =
      "\nCopy these values into your environment (store securely):\n" ++ "\n" ++
        pyJsonDumpObj 2 (payloadMembers (mkPayload cfg creds)) ++ "\n" ++
        "\nExport the client_id, client_secret, and refresh_token as env vars before running the service." ++ "\n") := by
  rw [run_flow_success w path scopes uc out env q cfg creds hex hparse hcreds hmk hw]
  constructor <;> intro hq <;> subst hq <;> simp [consoleOutput]

/-- Witness for claim C6 at a concrete successful world, for both values of
the quiet flag. -/
theorem claim_C6_witness :
    wOk.fs.pathExists "client_secret.json" = true ∧
    wOk.secretsParse = .ok cfgOk ∧
    (if false then wOk.consoleCreds else wOk.localServerCreds) = .ok credsOk ∧
    (run_flow wOk "client_secret.json" ["s"] false none none true).stdout = "" ∧
    (run_flow wOk "client_secret.json" ["s"] false none none false).stdout =
      "\nCopy these values into your environment (store securely):\n" ++ "\n" ++
        pyJsonDumpObj 2 (payloadMembers (mkPayload cfgOk credsOk)) ++ "\n" ++
        "\nExport the client_id, client_secret, and refresh_token as env vars before running the service." ++ "\n" :=
  ⟨rfl, rfl, rfl,
   (claim_C6 wOk "client_secret.json" ["s"] false none none true cfgOk credsOk
     rfl rfl rfl (fun _ => rfl) (fun _ => rfl)).1 rfl,
   (claim_C6 wOk "client_secret.json" ["s"] false none none false cfgOk credsOk
     rfl rfl rfl (fun _ => rfl) (fun _ => rfl)).2 rfl⟩

/-- Claim C7: once the flow object is constructed, the delegate call made is
`run_console` when `--no-local-server` is set and `run_local_server(port=0)`
(an ephemeral port) when it is not, regardless of whether the consent step
succeeds. -/
theorem claim_C7 (w : World) (path : String) (scopes : List String) (uc : Bool)
    (out env : Option String) (q : Bool) (cfg : ClientConfig)
    (hex : w.fs.pathExists path = true) (hparse : w.secretsParse = .ok cfg) :
    (uc = true → (run_flow w path scopes uc out env q).calls =
      [FlowCall.construct path scopes, FlowCall.runConsole]) ∧
    (uc = false → (run_flow w path scopes uc out env q).calls =
      [FlowCall.construct path scopes, FlowCall.runLocalServer 0]) := by
  constructor <;> intro hq <;> subst hq <;>
    simpa using run_flow_calls w path scopes _ out env q cfg hex hparse

/-- Witness for claim C7 at a concrete world, for both flag values. -/
theorem claim_C7_witness :
    wOk.fs.pathExists "client_secret.json" = true ∧
    wOk.secretsParse = .ok cfgOk ∧
    (run_flow wOk "client_secret.json" ["s"] true none none true).calls =
      [FlowCall.construct "client_secret.json" ["s"], FlowCall.runConsole] ∧
    (run_flow wOk "client_secret.json" ["s"] false none none true).calls =
      [FlowCall.construct "client_secret.json" ["s"], FlowCall.runLocalServer 0] :=
  ⟨rfl, rfl,
   (claim_C7 wOk "client_secret.json" ["s"] true none none true cfgOk rfl rfl).1 rfl,
   (claim_C7 wOk "client_secret.json" ["s"] false none none true cfgOk rfl rfl).2 rfl⟩

/-- Claim C8: each sink write is independently idempotent — performing the
output or env-file write twice leaves the same filesystem as performing it
once — it overwrites whatever was at the target path, and it creates the
parent directory. -/
theorem claim_C8 (p : Payload) (path : String) (fs : FS) :
    sinkWrite (sinkWrite fs path (outputFileContent p)) path (outputFileContent p) =
      sinkWrite fs path (outputFileContent p) ∧
    sinkWrite (sinkWrite fs path (envFileContent p)) path (envFileContent p) =
      sinkWrite fs path (envFileContent p) ∧
    (sinkWrite fs path (outputFileContent p)).files path = some (outputFileContent p) ∧
    (sinkWrite fs path (envFileContent p)).files path = some (envFileContent p) ∧
    (sinkWrite fs path (outputFileContent p)).dirs (parentDir path) = true ∧
    (sinkWrite fs path (envFileContent p)).dirs (parentDir path) = true :=
  ⟨sinkWrite_idem fs path _, sinkWrite_idem fs path _,
   sinkWrite_files_self fs path _, sinkWrite_files_self fs path _,
   sinkWrite_dirs_parent fs path _, sinkWrite_dirs_parent fs path _⟩

/-- Claim C9: when the credential object's refresh token is `None`, the env
file's third line is the literal `YOUTUBE_REFRESH_TOKEN="None"` (Python
f-string interpolation of `None`), while the JSON payload serializes
`refresh_token` as JSON null — the two sinks represent the absent value
differently. -/
theorem claim_C9 (cfg : ClientConfig) (creds : Creds) (h : creds.refresh_token = none) :
    envLines (mkPayload cfg creds) =
      ["YOUTUBE_CLIENT_ID=\"" ++ cfg.client_id ++ "\"",
       "YOUTUBE_CLIENT_SECRET=\"" ++ cfg.client_secret ++ "\"",
       "YOUTUBE_REFRESH_TOKEN=\"None\""] ∧
    payloadMembers (mkPayload cfg creds) =
      [("client_id", JVal.str cfg.client_id),
       ("client_secret", JVal.str cfg.client_secret),
       ("refresh_token", JVal.null),
       ("access_token", jvalOfOpt creds.token),
       ("token_expiry", jvalOfOpt (mkPayload cfg creds).token_expiry)] := by
  constructor <;> simp [envLines, payloadMembers, mkPayload, h, pyStr, jvalOfOpt]

/-- Witness for claim C9 at a concrete credential object without a refresh
token. -/
theorem claim_C9_witness :
    credsNoRT.refresh_token = none ∧
    (envLines (mkPayload cfgOk credsNoRT) =
      ["YOUTUBE_CLIENT_ID=\"" ++ cfgOk.client_id ++ "\"",
       "YOUTUBE_CLIENT_SECRET=\"" ++ cfgOk.client_secret ++ "\"",
       "YOUTUBE_REFRESH_TOKEN=\"None\""] ∧
     payloadMembers (mkPayload cfgOk credsNoRT) =
      [("client_id", JVal.str cfgOk.client_id),
       ("client_secret", JVal.str cfgOk.client_secret),
       ("refresh_token", JVal.null),
       ("access_token", jvalOfOpt credsNoRT.token),
       ("token_expiry", jvalOfOpt (mkPayload cfgOk credsNoRT).token_expiry)]) :=
  ⟨rfl, claim_C9 cfgOk credsNoRT rfl⟩

/-- Claim C10: the env-file writer interpolates values into double-quoted
assignments with no escaping, so for a client id containing a double quote the
written line is not a well-formed double-quoted shell assignment of that
value, while a quote-free assignment parses back correctly. -/
theorem claim_C10 :
    pQuote.client_id = "a\"b" ∧
    envLines pQuote =
      ["YOUTUBE_CLIENT_ID=\"a\"b\"", "YOUTUBE_CLIENT_SECRET=\"s\"",
       "YOUTUBE_REFRESH_TOKEN=\"r\""] ∧
    parseDQAssign "YOUTUBE_CLIENT_ID" "YOUTUBE_CLIENT_ID=\"a\"b\"" = none ∧
    parseDQAssign "YOUTUBE_CLIENT_SECRET" "YOUTUBE_CLIENT_SECRET=\"s\"" = some "s" := by
  decide

end GetRefreshToken
